import Mathlib

/-!
Verification of the `so-vits-svc-fork` notebook pipeline.

The repository's visible sources are a changelog and a Colab notebook
(`notebooks/so-vits-svc-fork-4.0.ipynb`) whose code cells are shell
invocations of an external command-line tool `svc`.  This file embeds:

* the notebook's executed shell cells, transcribed as whitespace-token
  lists in cell order;
* the structured `svc infer` invocations and the `svc train` model path
  appearing in those cells;
* models of the external `svc` subcommands, built from the specification's
  description of the command-line surface (the tool's own source is not
  part of the repository);
* the random source-file choice `NAME = str(random.randint(1, 100))`.

Theorems named after claim identifiers settle the specification's
statements against this embedding.
-/

/-! ## String helpers -/

/-- Remove `suf` from the end of `s` (as character lists); `none` when `s`
does not end with `suf`. -/
def chopSuffixL (s suf : List Char) : Option (List Char) :=
  if suf.length ≤ s.length ∧ s.drop (s.length - suf.length) = suf then
    some (s.take (s.length - suf.length))
  else none

/-- Remove `suf` from the end of string `s`; `none` when `s` does not end
with `suf`. -/
def chopSuffix (s suf : String) : Option String :=
  (chopSuffixL s.data suf.data).map (fun l => ⟨l⟩)

/-- Whether string `s` ends with `suf`. -/
def hasSuffixStr (s suf : String) : Bool :=
  (chopSuffixL s.data suf.data).isSome

theorem chopSuffixL_append (a b : List Char) : chopSuffixL (a ++ b) b = some a := by
  simp [chopSuffixL, List.length_append, Nat.add_sub_cancel, List.drop_left, List.take_left]

theorem chopSuffix_append (a b : String) : chopSuffix (a ++ b) b = some a := by
  simp [chopSuffix, String.data_append, chopSuffixL_append]

theorem append_right_cancel_str {a b c : String} (h : a ++ c = b ++ c) : a = b := by
  have hd : a.data ++ c.data = b.data ++ c.data := by
    rw [← String.data_append, ← String.data_append, h]
  have h2 := List.append_cancel_right hd
  cases a
  cases b
  exact congrArg String.mk h2

/-- `Nat.ble`-chained test that a list of numbers is weakly increasing. -/
def chainLeB : List Nat → Bool
  | [] => true
  | [_] => true
  | a :: b :: t => Nat.ble a b && chainLeB (b :: t)

/-- `Nat.blt`-chained test that a list of numbers is strictly increasing. -/
def chainLtB : List Nat → Bool
  | [] => true
  | [_] => true
  | a :: b :: t => Nat.blt a b && chainLtB (b :: t)

/-! ## A name-to-content file store

The notebook manipulates files (input audio, configs, checkpoints,
converted output).  A file store is a list of path/content pairs; writing
prepends, reading returns the most recent write. -/

abbrev FS := List (String × String)

/-- Content of the file at `path`, `none` when absent. -/
def readFile (path : String) : FS → Option String
  | [] => none
  | (p, c) :: rest => if p = path then some c else readFile path rest

/-- Write `content` at `path`, shadowing any earlier content there. -/
def writeFile (path content : String) (fs : FS) : FS :=
  (path, content) :: fs

theorem readFile_writeFile (p c : String) (fs : FS) :
    readFile p (writeFile p c fs) = some c := by
  simp [readFile, writeFile]

/-! ## Transcription of the notebook's executed shell cells

Each executed `!`-prefixed line of
`notebooks/so-vits-svc-fork-4.0.ipynb`, in cell order, as its
whitespace-separated tokens.  (`%pip` and `%cd` IPython magics and the
commented-out cells are not shell executions and are transcribed
separately where a claim needs them.)  The f-string placeholders
`{DATASET_NAME}` and `{NAME}` are kept literally. -/

def shellLines : List (List String) :=
  [ ["!nvidia-smi"],
    ["!python", "-m", "pip", "install", "-U", "pip", "wheel"],
    ["!mkdir", "-p", "\"dataset_raw/44k\""],
    ["!cp", "-R", "/content/drive/MyDrive/so-vits-svc-fork/dataset/{DATASET_NAME}/",
      "-t", "\"dataset_raw/44k/\""],
    ["!svc", "pre-resample"],
    ["!svc", "pre-config"],
    ["!cp", "configs/44k/config.json", "drive/MyDrive/so-vits-svc-fork"],
    ["!svc", "pre-hubert"],
    ["!svc", "train", "--model-path", "drive/MyDrive/so-vits-svc-fork/logs/44k"],
    ["!wget", "-N", "\"https://github.com/34j/34j/raw/main/jvs-parallel100/{NAME}.wav\""],
    ["!svc", "infer", "{NAME}.wav", "-m", "drive/MyDrive/so-vits-svc-fork/logs/44k/",
      "-c", "drive/MyDrive/so-vits-svc-fork/logs/44k/config.json"],
    ["!wget", "-N",
      "\"https://huggingface.co/TachibanaKimika/so-vits-svc-4.0-models/resolve/main/riri/G_riri_220.pth\""],
    ["!wget", "-N",
      "\"https://huggingface.co/TachibanaKimika/so-vits-svc-4.0-models/resolve/main/riri/config.json\""],
    ["!svc", "infer", "{NAME}.wav", "-c", "config.json", "-m", "G_riri_220.pth"],
    ["!wget", "-N",
      "\"https://huggingface.co/therealvul/so-vits-svc-4.0/resolve/main/Pinkie%20(speaking%20sep)/G_166400.pth\""],
    ["!wget", "-N",
      "\"https://huggingface.co/therealvul/so-vits-svc-4.0/resolve/main/Pinkie%20(speaking%20sep)/config.json\""],
    ["!svc", "infer", "{NAME}.wav", "--speaker", "\"Pinkie {neutral}\"",
      "-c", "config.json", "-m", "G_166400.pth"] ]

/-- The notebook's execution trace: each shell line tagged with the slot
at which it runs; a notebook executes its cells one after another. -/
def execTrace : List (Nat × List String) := shellLines.enum

/-- The `svc` subcommand a tokenized line invokes, when it is an `!svc`
invocation. -/
def svcSubcommandOf : List String → Option String
  | cmd :: sub :: _ => if cmd = "!svc" then some sub else none
  | _ => none

/-- All `svc` subcommands the notebook invokes, in execution order. -/
def svcSubcommands : List String := shellLines.filterMap svcSubcommandOf

/-- The command-line surface §6 of the specification describes. -/
def allowedSubcommands : List String :=
  ["pre-resample", "pre-config", "pre-hubert", "train", "infer"]

/-- Position of a subcommand in the pipeline: resample, build config,
extract features, train, infer. -/
def stageIndex (c : String) : Nat :=
  if c = "pre-resample" then 0
  else if c = "pre-config" then 1
  else if c = "pre-hubert" then 2
  else if c = "train" then 3
  else if c = "infer" then 4
  else 5

/-! ## The notebook's `svc infer` invocations

Three inference cells run on the downloaded source file `{NAME}.wav`; the
first uses the trained model directory, the other two use downloaded
pretrained checkpoint files. -/

structure InferInv where
  input : String
  model : String
  config : String
  speaker : Option String
  deriving DecidableEq

/-- Cell `!svc infer {NAME}.wav -m drive/MyDrive/so-vits-svc-fork/logs/44k/
-c drive/MyDrive/so-vits-svc-fork/logs/44k/config.json`. -/
def inferTrained (name : String) : InferInv :=
  { input := name ++ ".wav"
    model := "drive/MyDrive/so-vits-svc-fork/logs/44k/"
    config := "drive/MyDrive/so-vits-svc-fork/logs/44k/config.json"
    speaker := none }

/-- Cell `!svc infer {NAME}.wav -c config.json -m G_riri_220.pth`. -/
def inferRiri (name : String) : InferInv :=
  { input := name ++ ".wav"
    model := "G_riri_220.pth"
    config := "config.json"
    speaker := none }

/-- Cell `!svc infer {NAME}.wav --speaker "Pinkie {neutral}" -c config.json
-m G_166400.pth`. -/
def inferPinkie (name : String) : InferInv :=
  { input := name ++ ".wav"
    model := "G_166400.pth"
    config := "config.json"
    speaker := some "Pinkie {neutral}" }

/-- The notebook's three `svc infer` invocations, in cell order. -/
def inferInvocations (name : String) : List InferInv :=
  [inferTrained name, inferRiri name, inferPinkie name]

/-- Whether a `-m` argument is a single checkpoint file: the
specification's checkpoint files match `G_*.pth`, so a `.pth` path is a
checkpoint file, not a directory. -/
def isCheckpointFileArg (m : String) : Bool := hasSuffixStr m ".pth"

/-- The audio path each inference cell hands to `display(Audio(...))`
right after `svc infer`: f-string `{NAME}.out.wav`. -/
def displayedOutput (name : String) : String := name ++ ".out.wav"

/-! ## Models of the external `svc` subcommands

The `svc` tool itself is not part of this repository; the definitions
below follow the specification's description of its command-line surface
(§6 EXTERNAL INTERFACES). -/

/-- Modelled from the spec: the converted audio `svc infer` produces; the
`svc` engine is absent from the repository, so the conversion result is
an abstract tag recording which model, config and input produced it. -/
def outAudio (inv : InferInv) : String :=
  "model=" ++ inv.model ++ ":config=" ++ inv.config ++ ":input=" ++ inv.input

/-- Modelled from the spec: `svc infer <input.wav> -m <model> -c <config>
[--speaker <name>]` converts an input audio file, producing
`<input>.out.wav`.  The command succeeds when the input file exists and
is named `<stem>.wav`; it then writes the converted audio to
`<stem>.out.wav`. -/
def svcInfer (inv : InferInv) (fs : FS) : Option FS :=
  match chopSuffix inv.input ".wav", readFile inv.input fs with
  | some stem, some _ => some (writeFile (stem ++ ".out.wav") (outAudio inv) fs)
  | _, _ => none

/-- Modelled from the spec: `svc pre-config` generates a training
configuration file (`config.json`); the artifact list places it at
`configs/44k/config.json`. -/
def svcPreConfig (fs : FS) : FS :=
  writeFile "configs/44k/config.json" "generated-training-config" fs

/-- The path the specification's artifact list gives for the generated
training configuration. -/
def configPath : String := "configs/44k/config.json"

/-- Tokens of the notebook cell that copies the generated configuration:
`!cp configs/44k/config.json drive/MyDrive/so-vits-svc-fork`. -/
def cpConfigTokens : List String :=
  ["!cp", "configs/44k/config.json", "drive/MyDrive/so-vits-svc-fork"]

/-- The `--model-path` argument of the notebook's training cell. -/
def trainModelPath : String := "drive/MyDrive/so-vits-svc-fork/logs/44k"

/-- Modelled from the spec: checkpoint files match `G_*.pth` and live
under the training directory. -/
def checkpointPath (dir : String) (step : Nat) : String :=
  dir ++ "/G_" ++ toString step ++ ".pth"

/-- Modelled from the spec: `svc train --model-path <dir>` trains a model,
persisting checkpoints under the given directory; one checkpoint per
saved step. -/
def svcTrainCheckpoints (dir : String) (steps : List Nat) : List String :=
  steps.map (checkpointPath dir)

/-! ## Checkpoint retention

The notebook's introduction states: "This program saves the last 3
generations of models to Google Drive." -/

/-- The retention bound the notebook's introduction states. -/
def maxGenerations : Nat := 3

/-- Modelled from the spec: saving a new generation to the Drive model
directory keeps it together with the previously retained generations and
discards all but the `maxGenerations` most recent (the engine that does
the saving is absent from the repository; this follows the notebook's
own "saves the last 3 generations" description).  Retained generations
are listed most recent first. -/
def saveGeneration (retained : List Nat) (g : Nat) : List Nat :=
  (g :: retained).take maxGenerations

/-- Generations retained after a training run that saves `gens` in
order, starting from an empty model directory. -/
def retainedAfter (gens : List Nat) : List Nat :=
  gens.foldl saveGeneration []

/-! ## The random source choice

Inference cell: `NAME = str(random.randint(1, 100))`, then
`!wget -N "https://github.com/34j/34j/raw/main/jvs-parallel100/{NAME}.wav"`. -/

/-- Modelled from the spec: Python's `random.randint(lo, hi)` returns an
integer `N` with `lo ≤ N ≤ hi`, depending on the generator state, which
is abstracted as a `seed` argument. -/
def randint (lo hi seed : Nat) : Nat := lo + seed % (hi + 1 - lo)

/-- `NAME = str(random.randint(1, 100))`. -/
def nameChoice (seed : Nat) : String := toString (randint 1 100 seed)

/-- The URL the inference cell downloads with `wget -N`. -/
def sourceUrl (seed : Nat) : String :=
  "https://github.com/34j/34j/raw/main/jvs-parallel100/" ++ nameChoice seed ++ ".wav"

/-- The local file `wget -N` leaves behind: the URL's basename. -/
def sourceDownload (seed : Nat) : String := nameChoice seed ++ ".wav"

/-! ## The commented cleanup cell

Cell with lines `#!rm -r "dataset_raw/44k"` and `#!rm -r "dataset/44k"`:
the dataset directories the notebook's reset cell names. -/

def cleanupCellTokens : List (List String) :=
  [ ["#!rm", "-r", "\"dataset_raw/44k\""],
    ["#!rm", "-r", "\"dataset/44k\""] ]

/-- Strip one surrounding quote pair. -/
def unquote (s : String) : String := ⟨(s.data.drop 1).dropLast⟩

/-- The directories the cleanup cell removes. -/
def cleanupDirs : List String :=
  cleanupCellTokens.filterMap (fun l => l[2]?.map unquote)

/-- The raw dataset directory: the `!mkdir -p "dataset_raw/44k"` cell
creates it and the copy cell fills it. -/
def rawDatasetDir : String := "dataset_raw/44k"

/-! ## Shared lemmas -/

theorem svcInfer_run (stem : String) (inv : InferInv) (fs fsOut : FS)
    (hin : inv.input = stem ++ ".wav") (hrun : svcInfer inv fs = some fsOut) :
    fsOut = writeFile (stem ++ ".out.wav") (outAudio inv) fs := by
  unfold svcInfer at hrun
  rw [hin, chopSuffix_append] at hrun
  cases hread : readFile (stem ++ ".wav") fs with
  | none => rw [hread] at hrun; simp at hrun
  | some c => rw [hread] at hrun; simpa using hrun.symm

theorem outAudio_riri_ne_trained (name : String) :
    outAudio (inferRiri name) ≠ outAudio (inferTrained name) := by
  intro h
  have h2 : ("model=G_riri_220.pth:config=config.json:input=" : String) ++ (name ++ ".wav") =
      ("model=drive/MyDrive/so-vits-svc-fork/logs/44k/:config=drive/MyDrive/so-vits-svc-fork/logs/44k/config.json:input=" : String)
        ++ (name ++ ".wav") := h
  exact absurd (append_right_cancel_str h2) (by decide)

theorem outAudio_pinkie_ne_riri (name : String) :
    outAudio (inferPinkie name) ≠ outAudio (inferRiri name) := by
  intro h
  have h2 : ("model=G_166400.pth:config=config.json:input=" : String) ++ (name ++ ".wav") =
      ("model=G_riri_220.pth:config=config.json:input=" : String) ++ (name ++ ".wav") := h
  exact absurd (append_right_cancel_str h2) (by decide)

theorem take_append_take {α : Type} (n : Nat) (a b : List α) :
    (a ++ b.take n).take n = (a ++ b).take n := by
  rw [List.take_append_eq_append_take, List.take_append_eq_append_take, List.take_take,
    inf_eq_left.mpr (Nat.sub_le n a.length)]

theorem foldl_saveGeneration (gens : List Nat) :
    ∀ acc : List Nat, acc.length ≤ maxGenerations →
      gens.foldl saveGeneration acc = (gens.reverse ++ acc).take maxGenerations := by
  induction gens with
  | nil =>
      intro acc hacc
      simpa using (List.take_of_length_le hacc).symm
  | cons g gs ih =>
      intro acc hacc
      have hlen : (saveGeneration acc g).length ≤ maxGenerations :=
        List.length_take_le maxGenerations (g :: acc)
      calc (g :: gs).foldl saveGeneration acc
          = gs.foldl saveGeneration (saveGeneration acc g) := rfl
        _ = (gs.reverse ++ (g :: acc).take maxGenerations).take maxGenerations := ih _ hlen
        _ = (gs.reverse ++ (g :: acc)).take maxGenerations :=
              take_append_take maxGenerations gs.reverse (g :: acc)
        _ = ((g :: gs).reverse ++ acc).take maxGenerations := by
              rw [List.reverse_cons, List.append_assoc, List.singleton_append]

/-- A store holding one source audio file `1.wav`, for concrete runs. -/
def demoFS : FS := [("1.wav", "source-audio")]

/-! ## Claims -/

/-- C1: for every invocation of `svc infer` on an input audio file named
`<stem>.wav` that succeeds, the conversion output is written at
`<stem>.out.wav` (the input path with `.out.wav` substituted for `.wav`),
that file exists in the resulting store, and it is exactly the path the
notebook's `display(Audio(f"{NAME}.out.wav"))` plays. -/
theorem C1_infer_output (stem : String) (inv : InferInv) (fs fsOut : FS)
    (hin : inv.input = stem ++ ".wav") (hrun : svcInfer inv fs = some fsOut) :
    fsOut = writeFile (stem ++ ".out.wav") (outAudio inv) fs ∧
    readFile (stem ++ ".out.wav") fsOut = some (outAudio inv) ∧
    displayedOutput stem = stem ++ ".out.wav" := by
  have e := svcInfer_run stem inv fs fsOut hin hrun
  subst e
  exact ⟨rfl, readFile_writeFile _ _ _, rfl⟩

theorem C1_infer_output_witness :
    ∃ fsOut, svcInfer (inferTrained "1") demoFS = some fsOut ∧
      (fsOut = writeFile ("1" ++ ".out.wav") (outAudio (inferTrained "1")) demoFS ∧
       readFile ("1" ++ ".out.wav") fsOut = some (outAudio (inferTrained "1")) ∧
       displayedOutput "1" = "1" ++ ".out.wav") :=
  ⟨_, rfl, C1_infer_output "1" (inferTrained "1") demoFS _ rfl rfl⟩

/-- C2 (counterexample): it is not the case that every `svc infer`
invocation of the notebook passes a model directory to `-m`: with
`NAME = "1"`, the second invocation passes the checkpoint file
`G_riri_220.pth`. -/
theorem C2_counterexample :
    ¬ ∀ inv ∈ inferInvocations "1", isCheckpointFileArg inv.model = false := by
  decide

/-- C2 (amended): the argument passed to `-m` is a model directory for
the trained-model invocation (it is `.../logs/44k/`, ending in `/`, not a
`.pth` checkpoint file), while the two pretrained-model invocations pass
single checkpoint files ending in `.pth`. -/
theorem C2_model_arg_forms (name : String) :
    isCheckpointFileArg (inferTrained name).model = false ∧
    hasSuffixStr (inferTrained name).model "/" = true ∧
    isCheckpointFileArg (inferRiri name).model = true ∧
    isCheckpointFileArg (inferPinkie name).model = true :=
  ⟨(by decide : isCheckpointFileArg "drive/MyDrive/so-vits-svc-fork/logs/44k/" = false),
   (by decide : hasSuffixStr "drive/MyDrive/so-vits-svc-fork/logs/44k/" "/" = true),
   (by decide : isCheckpointFileArg "G_riri_220.pth" = true),
   (by decide : isCheckpointFileArg "G_166400.pth" = true)⟩

/-- C3: the notebook drives `svc` exclusively through the five
subcommands `pre-resample`, `pre-config`, `pre-hubert`, `train`, `infer`
(every `!svc` line uses one of them, and each of the five occurs), and the
pipeline stages appear in the fixed order: no stage's invocation precedes
an earlier stage's. -/
theorem C3_pipeline_order :
    svcSubcommands =
      ["pre-resample", "pre-config", "pre-hubert", "train", "infer", "infer", "infer"] ∧
    (∀ c ∈ svcSubcommands, c ∈ allowedSubcommands) ∧
    (∀ c ∈ allowedSubcommands, c ∈ svcSubcommands) ∧
    chainLeB (svcSubcommands.map stageIndex) = true := by
  decide

/-- C4 (counterexample): it is not the case that the only dataset
directory the notebook's reset cell knows of is the raw one: the cell
removes `dataset/44k` as well, a directory distinct from
`dataset_raw/44k`. -/
theorem C4_counterexample : ¬ ∀ d ∈ cleanupDirs, d = rawDatasetDir := by
  decide

/-- C4 (amended): `svc pre-resample` consumes the raw dataset directory
`dataset_raw/44k`, but resampling is not purely in place: the pipeline
also populates a separate resampled dataset directory `dataset/44k`,
distinct from the raw one, and the notebook's cleanup cell removes
both. -/
theorem C4_separate_resampled_dir :
    cleanupDirs = [rawDatasetDir, "dataset/44k"] ∧
    "dataset/44k" ∈ cleanupDirs ∧ "dataset/44k" ≠ rawDatasetDir := by
  decide

/-- C5: every checkpoint a run of `svc train --model-path <dir>` with the
notebook's model path persists lives under that directory, and the
notebook's trained-model `svc infer` cell passes that same directory
to `-m`. -/
theorem C5_train_checkpoints (steps : List Nat) (cp : String)
    (hmem : cp ∈ svcTrainCheckpoints trainModelPath steps) :
    (∃ rest, cp = trainModelPath ++ ("/" ++ rest)) ∧
    (∀ name, (inferTrained name).model = trainModelPath ++ "/") := by
  constructor
  · obtain ⟨s, hs, rfl⟩ := List.mem_map.mp hmem
    exact ⟨"G_" ++ (toString s ++ ".pth"), rfl⟩
  · intro name
    rfl

theorem C5_train_checkpoints_witness :
    (∃ rest, checkpointPath trainModelPath 800 = trainModelPath ++ ("/" ++ rest)) ∧
    (inferTrained "42").model = trainModelPath ++ "/" :=
  ⟨(C5_train_checkpoints [800] (checkpointPath trainModelPath 800)
      (by simp [svcTrainCheckpoints])).1,
   (C5_train_checkpoints [800] (checkpointPath trainModelPath 800)
      (by simp [svcTrainCheckpoints])).2 "42"⟩

/-- C6: after `svc pre-config` runs, the generated training configuration
exists at `configs/44k/config.json`, and that is exactly the path the
notebook's copy cell reads. -/
theorem C6_preconfig_generates (fs : FS) :
    readFile configPath (svcPreConfig fs) = some "generated-training-config" ∧
    cpConfigTokens[1]? = some configPath :=
  ⟨readFile_writeFile _ _ _, rfl⟩

/-- C7: the notebook's execution is strictly sequential: its shell lines
run at strictly increasing slots of a single trace, no slot runs two
different commands, and no line uses a backgrounding or job-control
construct (`&`, `nohup`) that could make two pipeline commands run
concurrently. -/
theorem C7_sequential :
    (∀ p ∈ execTrace, ∀ q ∈ execTrace, p.1 = q.1 → p.2 = q.2) ∧
    chainLtB (execTrace.map Prod.fst) = true ∧
    (∀ line ∈ shellLines, ∀ tok ∈ line, tok.data.contains '&' = false ∧ tok ≠ "nohup") := by
  decide

/-- C8: checkpoint retention: saving each generation keeps at most
`maxGenerations` = 3 generations, and after any training run the
retained set is exactly the 3 most recently saved generations (most
recent first), so it never exceeds 3. -/
theorem C8_retention (gens : List Nat) :
    (retainedAfter gens).length ≤ maxGenerations ∧
    retainedAfter gens = gens.reverse.take maxGenerations ∧
    (∀ retained g, (saveGeneration retained g).length ≤ maxGenerations) := by
  have h := foldl_saveGeneration gens [] (by simp)
  refine ⟨?_, ?_, ?_⟩
  · rw [retainedAfter, h]
    exact List.length_take_le _ _
  · rw [retainedAfter, h, List.append_nil]
  · intro r g
    exact List.length_take_le maxGenerations (g :: r)

/-- C9: the source audio index `NAME` is the decimal string of an integer
between 1 and 100 inclusive, so the downloaded source file is one of
`1.wav` … `100.wav`; and the choice is randomized: different generator
states can select different source files. -/
theorem C9_source_choice :
    (∀ seed : Nat, ∃ n : Nat, 1 ≤ n ∧ n ≤ 100 ∧ nameChoice seed = toString n ∧
      sourceDownload seed = toString n ++ ".wav" ∧
      sourceUrl seed =
        "https://github.com/34j/34j/raw/main/jvs-parallel100/" ++ (toString n ++ ".wav")) ∧
    nameChoice 0 ≠ nameChoice 1 := by
  constructor
  · intro seed
    refine ⟨1 + seed % 100, Nat.le_add_right 1 _, ?_, rfl, rfl, rfl⟩
    have : seed % 100 < 100 := Nat.mod_lt _ (by norm_num)
    omega
  · decide

/-- C10: successive `svc infer` invocations on the same input
`<name>.wav` all write to the identical output path `<name>.out.wav`
regardless of the model and config supplied, so each later invocation
overwrites the earlier one's output: after each run the file at that one
path holds that run's conversion, and the three runs' conversions are
pairwise different contents. -/
theorem C10_same_output_overwritten (name : String) (fs fs1 fs2 fs3 : FS)
    (h1 : svcInfer (inferTrained name) fs = some fs1)
    (h2 : svcInfer (inferRiri name) fs1 = some fs2)
    (h3 : svcInfer (inferPinkie name) fs2 = some fs3) :
    readFile (name ++ ".out.wav") fs1 = some (outAudio (inferTrained name)) ∧
    readFile (name ++ ".out.wav") fs2 = some (outAudio (inferRiri name)) ∧
    readFile (name ++ ".out.wav") fs3 = some (outAudio (inferPinkie name)) ∧
    outAudio (inferRiri name) ≠ outAudio (inferTrained name) ∧
    outAudio (inferPinkie name) ≠ outAudio (inferRiri name) := by
  have e1 := svcInfer_run name (inferTrained name) fs fs1 rfl h1
  subst e1
  have e2 := svcInfer_run name (inferRiri name) _ fs2 rfl h2
  subst e2
  have e3 := svcInfer_run name (inferPinkie name) _ fs3 rfl h3
  subst e3
  exact ⟨readFile_writeFile _ _ _, readFile_writeFile _ _ _, readFile_writeFile _ _ _,
    outAudio_riri_ne_trained name, outAudio_pinkie_ne_riri name⟩

theorem C10_same_output_overwritten_witness :
    ∃ fs1 fs2 fs3,
      svcInfer (inferTrained "1") demoFS = some fs1 ∧
      svcInfer (inferRiri "1") fs1 = some fs2 ∧
      svcInfer (inferPinkie "1") fs2 = some fs3 ∧
      (readFile ("1" ++ ".out.wav") fs1 = some (outAudio (inferTrained "1")) ∧
       readFile ("1" ++ ".out.wav") fs2 = some (outAudio (inferRiri "1")) ∧
       readFile ("1" ++ ".out.wav") fs3 = some (outAudio (inferPinkie "1")) ∧
       outAudio (inferRiri "1") ≠ outAudio (inferTrained "1") ∧
       outAudio (inferPinkie "1") ≠ outAudio (inferRiri "1")) :=
  ⟨_, _, _, rfl, rfl, rfl,
   C10_same_output_overwritten "1" demoFS _ _ _ rfl rfl rfl⟩
